import Mathlib

/-!
Verification development for the geospatial question resolution engine
(`matching.ts` and the measuring question module).

The engine logic is shallowly embedded: pure control flow is translated
directly; the external collaborators named in the spec (place-data
provider, geometry primitives, admin-boundary lookup, map context) are
modelled as fields of an explicit environment `Env`, and geometry values
produced by external primitives are represented symbolically.  Toast
notifications are modelled as a list of emitted warning strings.
Asynchronous calls are modelled as plain function calls; exceptions as
`Except`.  The `_.memoize` wrapper is modelled by explicit state passing
of a cache (an association list) together with a counter of how many
times the underlying body was actually run.
-/

namespace JetLag

/-- A longitude/latitude pair (model of a turf point `[lng, lat]`). -/
structure Coord where
  lng : ℚ
  lat : ℚ
deriving DecidableEq

/-- A raw Overpass element: either carries a `center` coordinate or a direct
`lon`/`lat`; may carry an `iata` tag (airports). -/
structure RawElement where
  center : Option Coord
  lon : ℚ
  lat : ℚ
  iata : Option String
deriving DecidableEq

/-- Normalization of one raw element into a point, choosing the center when
present: `turf.point([x.center ? x.center.lon : x.lon, x.center ? x.center.lat : x.lat])`. -/
def elementPoint (x : RawElement) : Coord :=
  match x.center with
  | some c => c
  | none => ⟨x.lon, x.lat⟩

/-- A provider response: `{ elements, remark? }`. -/
structure ZoneResponse where
  elements : List RawElement
  remark : Option String
deriving DecidableEq

/-- JS `s.startsWith(marker)`, computed on the character lists. -/
def strStartsWith (s marker : String) : Bool :=
  marker.data.isPrefixOf s.data

/-- `data.remark && data.remark.startsWith("runtime error")` (JS truthiness:
a missing remark is falsy; an empty remark is falsy and also does not start
with the marker). -/
def runtimeErrorRemark : Option String → Bool
  | none => false
  | some s => strStartsWith s "runtime error"

/-- `_.uniqBy` with a key function: keeps the first occurrence of each key. -/
def uniqByAux {α β : Type} [DecidableEq β] (key : α → β) :
    List α → List β → List α
  | [], _ => []
  | x :: rest, seen =>
    if key x ∈ seen then uniqByAux key rest seen
    else x :: uniqByAux key rest (key x :: seen)

/-- `_.uniqBy(xs, key)`. -/
def uniqByKey {α β : Type} [DecidableEq β] (key : α → β) (xs : List α) : List α :=
  uniqByAux key xs []

/-- JS `a || b` on optional strings: `a` is kept when truthy (present and
non-empty), otherwise `b` is used. -/
def jsOrStr : Option String → Option String → Option String
  | some s, b => if s = "" then b else some s
  | none, b => b

/-- JS falsiness of an optional string value (`!x`): true for a missing value
and for the empty string. -/
def jsFalsyStr : Option String → Bool
  | none => true
  | some s => s = ""

/-- The regex test `/^[a-zA-Z]$/.test(name[0])`: the first character must
exist and be a single ASCII letter (on the empty string, `name[0]` is
`undefined` and the test is false). -/
def firstAsciiTest (s : String) : Bool :=
  match s.data with
  | [] => false
  | c :: _ => c.isAlpha

/-- `s[0].toUpperCase()` as an optional character (`undefined[0]` would
throw, hence `none` for the empty string). -/
def charUpperFirst (s : String) : Option Char :=
  s.data.head?.map Char.toUpper

/-- Errors raised (as thrown JS exceptions) by the engine. -/
inductive EngineErr where
  /-- `throw new Error("No boundary found")` -/
  | noBoundaryFound
  /-- `throw new Error("No English name")` -/
  | noEnglishName
  /-- a JS `TypeError` from dereferencing `undefined` -/
  | typeError
  /-- a geometry primitive threw on a degenerate input -/
  | geometryOpFailed
deriving DecidableEq

/-- Category metadata of a zone question (`question.cat`). -/
structure CatData where
  adminLevel : Int
deriving DecidableEq

/-- A matching question descriptor.  `qtype` is the subtype tag
(`question.type`); `same` is the mutable outcome flag; `cat` and `geo` are
the optional category metadata and embedded custom geometry (the latter
symbolic, identified by a number); `lengthComparison` is the enumerated
outcome of `same-length-station`. -/
structure MatchingQuestion where
  qtype : String
  lat : ℚ
  lng : ℚ
  same : Bool
  cat : Option CatData
  geo : Option Nat
  lengthComparison : Option String
deriving DecidableEq

/-- A measuring question descriptor with its `hiderCloser` outcome flag. -/
structure MeasuringQuestion where
  qtype : String
  lat : ℚ
  lng : ℚ
  hiderCloser : Bool
  geo : Option Nat
deriving DecidableEq

/-- The map/application context read by the cache-key functions:
`polyGeoJSON.get()` (the drawn polygon, symbolic) and
`mapGeoLocation.get()` (the coarse viewport, symbolic). -/
structure MapContext where
  polyGeoJSON : Option Nat
  mapGeoLocation : Nat
deriving DecidableEq

/-- The `entirety` component of a cache key:
`polyGeoJSON.get() ? polyGeoJSON.get() : mapGeoLocation.get()`. -/
inductive ContextFingerprint where
  | poly (p : Nat)
  | geoLocation (g : Nat)
deriving DecidableEq

/-- Computes the `entirety` field of a cache key from the context. -/
def contextFingerprint (ctx : MapContext) : ContextFingerprint :=
  match ctx.polyGeoJSON with
  | some p => .poly p
  | none => .geoLocation ctx.mapGeoLocation

/-- The canonical signature serialized (`JSON.stringify`) as the cache key of
`determineMatchingBoundary`: `{type, lat, lng, cat, geo, entirety}`.
Structural equality of this record models equality of the JSON strings. -/
structure MatchingSignature where
  qtype : String
  lat : ℚ
  lng : ℚ
  cat : Option CatData
  geo : Option Nat
  entirety : ContextFingerprint
deriving DecidableEq

/-- The key function of the memoized `determineMatchingBoundary`. -/
def matchingKey (ctx : MapContext) (q : MatchingQuestion) : MatchingSignature :=
  ⟨q.qtype, q.lat, q.lng, q.cat, q.geo, contextFingerprint ctx⟩

/-- The canonical signature serialized as the cache key of
`bufferedDeterminer`: `{type, lat, lng, entirety, geo}`. -/
structure MeasuringSignature where
  qtype : String
  lat : ℚ
  lng : ℚ
  entirety : ContextFingerprint
  geo : Option Nat
deriving DecidableEq

/-- The key function of the memoized `bufferedDeterminer`. -/
def measuringKey (ctx : MapContext) (q : MeasuringQuestion) : MeasuringSignature :=
  ⟨q.qtype, q.lat, q.lng, contextFingerprint ctx, q.geo⟩

/-- A working map mask value.  `base` is an opaque externally-owned mask;
`featureCollection` is the literal `{type: "FeatureCollection", features}`
wrapper built at the defensive-retry call sites. -/
inductive MapData where
  | base (id : Nat)
  | featureCollection (features : List MapData)

/-- Properties of an administrative boundary returned by
`findAdminBoundary` (its geometry is symbolic). -/
structure AdminZone where
  nameEn : Option String
  name : Option String
  geomId : Nat
deriving DecidableEq

/-- Properties of a train station feature (`properties.id`,
`properties["name:en"]`, `properties.name`). -/
structure StationProps where
  id : String
  nameEn : Option String
  name : Option String
deriving DecidableEq

/-- A resolved matching boundary geometry value (symbolic where it is
produced by external geometry primitives). -/
inductive BVal where
  /-- `boundary` was left `undefined` (no Voronoi cell matched, or the
  switch fell through) -/
  | undefinedVal
  /-- `custom-zone`: the caller-supplied geometry verbatim -/
  | customGeo (g : Option Nat)
  /-- `zone`: the admin boundary feature -/
  | adminBoundary (z : AdminZone)
  /-- `letter-zone`: the simplified union of the fetched same-letter zones
  (symbolic result of the fetch + simplify + union pipeline) -/
  | letterZonesUnion (zones : Nat)
  /-- point-set questions: the Voronoi cell containing the reference point -/
  | voronoiCell (cell : Nat)
deriving DecidableEq

/-- The value returned by `determineMatchingBoundary`'s body: the sentinel
`false` (no boundary) or a boundary value. -/
inductive BoundaryRes where
  | sentinelFalse
  | value (b : BVal)
deriving DecidableEq

/-- The value returned by `findMatchingPlaces`: a list of normalized points,
or (for `custom-points`) the question's own geometry `question.geo!`. -/
inductive PlacesResult where
  | pts (ps : List Coord)
  | customGeo (g : Option Nat)
deriving DecidableEq

/-- A measuring boundary geometry (symbolic where produced by external
geometry primitives). -/
inductive MGeom where
  /-- `highspeed-measure-shinkansen`: the memoized group/connect/simplify/
  buffer/combine pipeline applied to the fetched line features (symbolic) -/
  | highSpeedBase (features : Nat)
  /-- `coastline`: the viewport bbox minus the coastline buffered by the
  question's distance to the coastline -/
  | coastlineBand (bbox : Nat) (coast : Nat) (dist : ℚ)
  /-- `turf.combine` of a list of normalized points -/
  | combinedPoints (pts : List Coord)
  /-- `turf.multiPolygon([])` -/
  | multiPolygonEmpty
  /-- `custom-measure`: `turf.combine` of the caller-supplied features -/
  | customCombined (g : Nat)
deriving DecidableEq

/-- The value of `determineMeasuringBoundary`: sentinel `false` or a list of
geometries (the code returns arrays of features). -/
inductive MeasRes where
  | sentinelFalse
  | geoms (gs : List MGeom)
deriving DecidableEq

/-- The value of `bufferedDeterminer`: sentinel `false`, or
`arcBufferToPoint(turf.featureCollection(placeData), lat, lng)` kept
symbolically together with its inputs. -/
inductive MeasBufferRes where
  | sentinelFalse
  | buffered (gs : List MGeom) (lat lng : ℚ)
deriving DecidableEq

/-- The external collaborators of the engine (place-data provider, admin
lookup, geometry primitives, map/application context), bundled as one
environment.  Each field corresponds to one consumed interface of §6 of the
spec; geometry primitive results are symbolic. -/
structure Env where
  /-- `hiderMode.get()`: `false`, or the hider's coordinates -/
  hiderMode : Option Coord
  /-- `mapGeoJSON.get()` -/
  mapGeoJSON : Option MapData
  /-- `trainStations.get()` (station geometries, symbolic ids) -/
  trainStations : List Nat
  /-- `findAdminBoundary(lat, lng, adminLevel)` -/
  findAdminBoundary : ℚ → ℚ → Int → Option AdminZone
  /-- the letter-zone fetch + simplify + `safeUnion` pipeline for a given
  admin level and initial letter (symbolic result) -/
  letterZones : Int → Char → Nat
  /-- `findPlacesInZone` for the airport filter -/
  airportsResponse : ZoneResponse
  /-- `findPlacesInZone` for the major-city filter -/
  citiesResponse : ZoneResponse
  /-- `findPlacesInZone` for a category-"full" location kind -/
  fullResponse : String → ZoneResponse
  /-- `nearestToQuestion({type, lng, lat, ...}).properties.name` -/
  nearestName : String → ℚ → ℚ → Option String
  /-- `nearestToQuestion({type, lng, lat, ...}).properties.distanceToPoint` -/
  nearestDistanceToPoint : String → ℚ → ℚ → ℚ
  /-- the `[railway=station]` fetch converted by `osmtogeojson` (symbolic) -/
  stationPlaces : Nat
  /-- `turf.nearestPoint(point, places)` over the station collection -/
  nearestStation : Coord → Nat → StationProps
  /-- `trainLineNodeFinder(stationId)` -/
  trainLineNodes : String → List Int
  /-- `findPlacesSpecificInZone` for McDonald's / Seven-Eleven (symbolic) -/
  specificPlaces : String → Nat
  /-- `turf.nearestPoint` over a specific-places collection (symbolic id) -/
  nearestSpecific : Coord → Nat → Nat
  /-- `turf.distance(a, b, {units: "miles"})` -/
  distanceMiles : Coord → Nat → ℚ
  /-- `turf.nearestPoint` over the cached train-station geometries -/
  nearestStationGeom : Coord → List Nat → Nat
  /-- `turf.distance(a, b)` (default kilometres) -/
  distanceKm : Coord → Nat → ℚ
  /-- the `[highspeed=yes]` fetch (symbolic) -/
  highspeedFeatures : Nat
  /-- `fetchCoastline()` converted by `lineToPolygon` (symbolic) -/
  coastline : Nat
  /-- `turf.pointToPolygonDistance(point, coastline, miles, geodesic)` -/
  pointToPolygonDistance : Coord → Nat → ℚ
  /-- `turf.bbox` of a map mask (symbolic) -/
  bboxOf : MapData → Nat
  /-- `turf.booleanPointInPolygon` against a mask feature -/
  pip : Coord → MapData → Bool
  /-- `turf.booleanPointInPolygon` against a Voronoi cell -/
  pipCell : Coord → Nat → Bool
  /-- `geoSpatialVoronoi(data)`: the tessellation's cells (symbolic ids) -/
  geoSpatialVoronoi : PlacesResult → List Nat
  /-- `holedMask(feature)`; may throw on degenerate input -/
  holedMask : MapData → Except EngineErr MapData
  /-- `modifyMapData(mapData, boundary, same)`; may throw -/
  modifyMapData : MapData → BVal → Bool → Except EngineErr MapData
  /-- `modifyMapData(mapData, buffer, hiderCloser)` (measuring); may throw -/
  modifyMapDataMeasuring :
    MapData → MeasBufferRes → Bool → Except EngineErr MapData

/-- Explicit state of one `_.memoize` wrapper: the cache (an association
list from serialized keys to cached results — for an async function the
cached result is the settled promise, hence an `Except`) plus a counter of
how many times the underlying body actually ran. -/
structure MemoState (K A : Type) where
  cache : List (K × A)
  computeCount : Nat

/-- The empty cache a `_.memoize` wrapper starts with. -/
def memoEmpty {K A : Type} : MemoState K A := ⟨[], 0⟩

/-- Association-list lookup used by the cache model. -/
def lookupEntry {K A : Type} [DecidableEq K] : List (K × A) → K → Option A
  | [], _ => none
  | (k, v) :: rest, key => if k = key then some v else lookupEntry rest key

/-- One call through a `_.memoize` wrapper: an equal key short-circuits to
the cached result; otherwise the body runs (the counter increases) and its
result — success or failure alike — is stored. -/
def memoizeCall {Q K A : Type} [DecidableEq K] (keyOf : Q → K) (body : Q → A)
    (st : MemoState K A) (q : Q) : A × MemoState K A :=
  match lookupEntry st.cache (keyOf q) with
  | some v => (v, st)
  | none =>
    let v := body q
    (v, ⟨(keyOf q, v) :: st.cache, st.computeCount + 1⟩)

/-- The ten plain category location kinds. -/
def plainCategories : List String :=
  ["aquarium", "zoo", "theme_park", "museum", "hospital", "cinema",
   "library", "golf_course", "consulate", "park"]

/-- The category-"full" matching/measuring subtypes. -/
def fullTypes : List String :=
  ["aquarium-full", "zoo-full", "theme_park-full", "museum-full",
   "hospital-full", "cinema-full", "library-full", "golf_course-full",
   "consulate-full", "park-full"]

/-- The matching subtypes for which `determineMatchingBoundary` returns the
sentinel `false` (plain category zones and the station questions). -/
def matchingNoBoundaryTypes : List String :=
  plainCategories ++
    ["same-first-letter-station", "same-length-station", "same-train-line"]

/-- The point-set matching subtypes handled by the Voronoi branch. -/
def pointSetMatchingTypes : List String :=
  ["airport", "major-city"] ++ fullTypes ++ ["custom-points"]

/-- `question.type.split("-full")[0]`. -/
def locationOfFull (t : String) : String :=
  (t.splitOn "-full").headD ""

/-- The toast shown when the provider reports a runtime error for a
category-"full" fetch. -/
def fullErrorToast (location : String) : String :=
  "Error finding " ++ location ++
    ". Please enable hiding zone mode and switch to the Large Game variation of this question."

/-- The toast shown when a category-"full" fetch returns too many elements. -/
def fullTooManyToast (location : String) (n : Nat) : String :=
  "Too many " ++ location ++ " found (" ++ toString n ++
    "). Please enable hiding zone mode and switch to the Large Game variation of this question."

/-- `findMatchingPlaces(question)`: the fetched and normalized point set of
a point-set matching question, together with the warnings it toasts.
`none` models the `undefined` a non-point-set subtype would fall through
to. -/
def findMatchingPlaces (env : Env) (q : MatchingQuestion) :
    Option (List String × PlacesResult) :=
  if q.qtype == "airport" then
    some ([], .pts ((uniqByKey (fun x => x.iata)
      env.airportsResponse.elements).map elementPoint))
  else if q.qtype == "major-city" then
    some ([], .pts (env.citiesResponse.elements.map elementPoint))
  else if q.qtype == "custom-points" then
    some ([], .customGeo q.geo)
  else if fullTypes.contains q.qtype then
    let location := locationOfFull q.qtype
    let data := env.fullResponse location
    if runtimeErrorRemark data.remark then
      some ([fullErrorToast location], .pts [])
    else if 1000 ≤ data.elements.length then
      some ([fullTooManyToast location data.elements.length], .pts [])
    else
      some ([], .pts (data.elements.map elementPoint))
  else none

/-- The letter-zone fallback to `properties.name`, accepted only when its
first character passes `/^[a-zA-Z]$/`, else
`throw new Error("No English name")`.  A missing native name crashes at
`name[0]` with a `TypeError`. -/
def fallbackName : Option String → Except EngineErr String
  | none => .error .typeError
  | some n => if firstAsciiTest n then .ok n else .error .noEnglishName

/-- The letter-zone name resolution: prefer `properties["name:en"]`; when
that is falsy (absent or empty) fall back to the guarded native name. -/
def chooseEnglishName (nameEn nm : Option String) : Except EngineErr String :=
  match nameEn with
  | some s => if s = "" then fallbackName nm else .ok s
  | none => fallbackName nm

/-- The Voronoi-cell search loop: the first cell of the tessellation that
contains the reference point. -/
def firstContainingCell (pip : Coord → Nat → Bool) (p : Coord) :
    List Nat → Option Nat
  | [] => none
  | c :: rest => if pip p c then some c else firstContainingCell pip p rest

/-- The body of the memoized `determineMatchingBoundary`: the big switch
over the matching subtype. -/
def determineMatchingBoundaryBody (env : Env) (q : MatchingQuestion) :
    Except EngineErr BoundaryRes :=
  if matchingNoBoundaryTypes.contains q.qtype then
    .ok .sentinelFalse
  else if q.qtype == "custom-zone" then
    .ok (.value (.customGeo q.geo))
  else if q.qtype == "zone" then
    match q.cat with
    | none => .error .typeError
    | some cat =>
      match env.findAdminBoundary q.lat q.lng cat.adminLevel with
      | none => .error .noBoundaryFound
      | some zone => .ok (.value (.adminBoundary zone))
  else if q.qtype == "letter-zone" then
    match q.cat with
    | none => .error .typeError
    | some cat =>
      match env.findAdminBoundary q.lat q.lng cat.adminLevel with
      | none => .error .noBoundaryFound
      | some zone =>
        match chooseEnglishName zone.nameEn zone.name with
        | .error e => .error e
        | .ok englishName =>
          match charUpperFirst englishName with
          | none => .error .typeError
          | some letter =>
            .ok (.value (.letterZonesUnion (env.letterZones cat.adminLevel letter)))
  else if pointSetMatchingTypes.contains q.qtype then
    match findMatchingPlaces env q with
    | none => .error .typeError
    | some (_, data) =>
      let voronoi := env.geoSpatialVoronoi data
      match firstContainingCell env.pipCell ⟨q.lng, q.lat⟩ voronoi with
      | some cell => .ok (.value (.voronoiCell cell))
      | none => .ok (.value .undefinedVal)
  else
    .ok (.value .undefinedVal)

/-- The cache state of the memoized `determineMatchingBoundary`. -/
abbrev MatchingMemo := MemoState MatchingSignature (Except EngineErr BoundaryRes)

/-- `determineMatchingBoundary = _.memoize(body, keyFn)`: one call through
the wrapper, threading the cache state. -/
def determineMatchingBoundary (env : Env) (ctx : MapContext)
    (st : MatchingMemo) (q : MatchingQuestion) :
    Except EngineErr BoundaryRes × MatchingMemo :=
  memoizeCall (matchingKey ctx) (determineMatchingBoundaryBody env) st q

/-- `adjustPerMatching(question, mapData)`: `null` map data returns
`undefined` immediately; the sentinel `false` boundary returns the map data
unchanged; otherwise `modifyMapData(mapData, boundary, question.same)`. -/
def adjustPerMatching (env : Env) (ctx : MapContext) (st : MatchingMemo)
    (q : MatchingQuestion) (mapData : Option MapData) :
    Except EngineErr (Option MapData) × MatchingMemo :=
  match mapData with
  | none => (.ok none, st)
  | some m =>
    match determineMatchingBoundary env ctx st q with
    | (.error e, st1) => (.error e, st1)
    | (.ok .sentinelFalse, st1) => (.ok (some m), st1)
    | (.ok (.value bv), st1) =>
      match env.modifyMapData m bv q.same with
      | .error e => (.error e, st1)
      | .ok m2 => (.ok (some m2), st1)

/-- The first attempt of the boundary-containment path of
`hiderifyMatching`: `holedMask((await adjustPerMatching(question, $mapGeoJSON))!)`.
An exception from either the adjustment or `holedMask` (including
`holedMask` applied to an `undefined` adjustment result) is an error. -/
def matchingAttempt1 (env : Env) (ctx : MapContext) (st : MatchingMemo)
    (q : MatchingQuestion) (m : MapData) :
    Except EngineErr MapData × MatchingMemo :=
  match adjustPerMatching env ctx st q (some m) with
  | (.error e, st1) => (.error e, st1)
  | (.ok none, st1) => (.error .geometryOpFailed, st1)
  | (.ok (some r), st1) => (env.holedMask r, st1)

/-- The defensive retry of the boundary-containment path of
`hiderifyMatching`: the adjustment is re-run on
`{type: "FeatureCollection", features: [holedMask($mapGeoJSON)]}` — the
current mask's inverse wrapped as a single-feature collection. -/
def matchingAttempt2 (env : Env) (ctx : MapContext) (st : MatchingMemo)
    (q : MatchingQuestion) (m : MapData) :
    Except EngineErr (Option MapData) × MatchingMemo :=
  match env.holedMask m with
  | .error e => (.error e, st)
  | .ok hm =>
    adjustPerMatching env ctx st q (some (MapData.featureCollection [hm]))

/-- The boundary-containment tail of `hiderifyMatching`: apply the boundary
to the working mask (with the one defensive retry), test whether the hider
point lies inside the resulting holed mask, and flip `question.same` when
it does; any doubly-failed attempt or missing feature returns the question
unchanged. -/
def hiderifyMatchingBoundary (env : Env) (ctx : MapContext)
    (st : MatchingMemo) (q : MatchingQuestion) (hider : Coord) :
    MatchingQuestion × MatchingMemo :=
  match env.mapGeoJSON with
  | none => (q, st)
  | some m =>
    match matchingAttempt1 env ctx st q m with
    | (.ok f, st1) =>
      let hiderPoint : Coord := ⟨hider.lng, hider.lat⟩
      (if env.pip hiderPoint f then { q with same := !q.same } else q, st1)
    | (.error _, st1) =>
      match matchingAttempt2 env ctx st1 q m with
      | (.error _, st2) => (q, st2)
      | (.ok none, st2) => (q, st2)
      | (.ok (some f), st2) =>
        let hiderPoint : Coord := ⟨hider.lng, hider.lat⟩
        (if env.pip hiderPoint f then { q with same := !q.same } else q, st2)

/-- `parseInt(id.split("/")[1])`: the numeric node id of a station feature
id such as `"node/123"`; `none` models `NaN` (a later membership test
against `NaN` is always false). -/
def parseNodeId (id : String) : Option Int :=
  match (id.splitOn "/").get? 1 with
  | none => none
  | some t => t.toInt?

/-- The station branch of `hiderifyMatching` (`same-first-letter-station`,
`same-length-station`, `same-train-line`): nearest stations of hider and
seeker, the train-line membership test, and the first-letter / name-length
comparisons over `properties["name:en"] || properties.name`. -/
def hiderifyMatchingStations (env : Env) (q : MatchingQuestion)
    (hider : Coord) : MatchingQuestion :=
  let hiderPoint : Coord := ⟨hider.lng, hider.lat⟩
  let seekerPoint : Coord := ⟨q.lng, q.lat⟩
  let nearestHider := env.nearestStation hiderPoint env.stationPlaces
  let nearestSeeker := env.nearestStation seekerPoint env.stationPlaces
  let q1 :=
    if q.qtype == "same-train-line" then
      let nodes := env.trainLineNodes nearestSeeker.id
      match parseNodeId nearestHider.id with
      | some hiderId => { q with same := nodes.contains hiderId }
      | none => { q with same := false }
    else q
  match jsOrStr nearestHider.nameEn nearestHider.name,
        jsOrStr nearestSeeker.nameEn nearestSeeker.name with
  | some hn, some sn =>
    if hn = "" ∨ sn = "" then q1
    else if q.qtype == "same-first-letter-station" then
      { q1 with same := charUpperFirst hn == charUpperFirst sn }
    else if q.qtype == "same-length-station" then
      { q1 with
          lengthComparison :=
            some (if hn.length = sn.length then "same"
              else if hn.length < sn.length then "shorter" else "longer") }
    else q1
  | _, _ => q1

/-- `hiderifyMatching(question)`: no-op outside hider mode; nearest-feature
name comparison for plain categories; the station branch; otherwise the
boundary-containment self-correction path. -/
def hiderifyMatching (env : Env) (ctx : MapContext) (st : MatchingMemo)
    (q : MatchingQuestion) : MatchingQuestion × MatchingMemo :=
  match env.hiderMode with
  | none => (q, st)
  | some hider =>
    if plainCategories.contains q.qtype then
      let questionNearestName := env.nearestName q.qtype q.lng q.lat
      let hiderNearestName := env.nearestName q.qtype hider.lng hider.lat
      ({ q with same := questionNearestName == hiderNearestName }, st)
    else if q.qtype == "same-first-letter-station" ∨
        q.qtype == "same-length-station" ∨ q.qtype == "same-train-line" then
      (hiderifyMatchingStations env q hider, st)
    else
      hiderifyMatchingBoundary env ctx st q hider

/-- The measuring subtypes for which `determineMeasuringBoundary` returns
the sentinel `false` (plain categories and the fixed-distance specials). -/
def measuringNoBoundaryTypes : List String :=
  plainCategories ++ ["mcdonalds", "seven11", "rail-measure"]

/-- `determineMeasuringBoundary(question)`: the switch over the measuring
subtype, producing toasts and either a list of geometries, the sentinel
`false`, or `undefined` (modelled `none`).  The leading
`turf.bbox(mapGeoJSON.get()!)` crashes when the map data is `null`. -/
def determineMeasuringBoundary (env : Env) (q : MeasuringQuestion) :
    List String × Except EngineErr (Option MeasRes) :=
  match env.mapGeoJSON with
  | none => ([], .error .typeError)
  | some mapG =>
    let bBox := env.bboxOf mapG
    if q.qtype == "highspeed-measure-shinkansen" then
      ([], .ok (some (.geoms [.highSpeedBase env.highspeedFeatures])))
    else if q.qtype == "coastline" then
      let distanceToCoastline :=
        env.pointToPolygonDistance ⟨q.lng, q.lat⟩ env.coastline
      ([], .ok (some (.geoms
        [.coastlineBand bBox env.coastline distanceToCoastline])))
    else if q.qtype == "airport" then
      ([], .ok (some (.geoms [.combinedPoints ((uniqByKey (fun x => x.iata)
        env.airportsResponse.elements).map elementPoint)])))
    else if q.qtype == "city" then
      ([], .ok (some (.geoms
        [.combinedPoints (env.citiesResponse.elements.map elementPoint)])))
    else if fullTypes.contains q.qtype then
      let location := locationOfFull q.qtype
      let data := env.fullResponse location
      if runtimeErrorRemark data.remark then
        ([fullErrorToast location], .ok (some (.geoms [.multiPolygonEmpty])))
      else if 1000 ≤ data.elements.length then
        ([fullTooManyToast location data.elements.length],
          .ok (some (.geoms [.multiPolygonEmpty])))
      else
        ([], .ok (some (.geoms
          [.combinedPoints (data.elements.map elementPoint)])))
    else if q.qtype == "custom-measure" then
      match q.geo with
      | none => ([], .error .typeError)
      | some g => ([], .ok (some (.geoms [.customCombined g])))
    else if measuringNoBoundaryTypes.contains q.qtype then
      ([], .ok (some .sentinelFalse))
    else ([], .ok none)

/-- The body of the memoized `bufferedDeterminer`: `false` and `undefined`
boundaries resolve to `false`; otherwise
`arcBufferToPoint(turf.featureCollection(placeData), question.lat, question.lng)`. -/
def bufferedDeterminerBody (env : Env) (q : MeasuringQuestion) :
    Except EngineErr MeasBufferRes :=
  match (determineMeasuringBoundary env q).2 with
  | .error e => .error e
  | .ok none => .ok .sentinelFalse
  | .ok (some .sentinelFalse) => .ok .sentinelFalse
  | .ok (some (.geoms gs)) => .ok (.buffered gs q.lat q.lng)

/-- The cache state of the memoized `bufferedDeterminer`. -/
abbrev MeasuringMemo := MemoState MeasuringSignature (Except EngineErr MeasBufferRes)

/-- `bufferedDeterminer = _.memoize(body, keyFn)`: one call through the
wrapper, threading the cache state. -/
def bufferedDeterminer (env : Env) (ctx : MapContext) (st : MeasuringMemo)
    (q : MeasuringQuestion) :
    Except EngineErr MeasBufferRes × MeasuringMemo :=
  memoizeCall (measuringKey ctx) (bufferedDeterminerBody env) st q

/-- `adjustPerMeasuring(question, mapData)`: `null` map data returns
`undefined` immediately; a `false` buffer returns the map data unchanged;
otherwise `modifyMapData(mapData, buffer, question.hiderCloser)`. -/
def adjustPerMeasuring (env : Env) (ctx : MapContext) (st : MeasuringMemo)
    (q : MeasuringQuestion) (mapData : Option MapData) :
    Except EngineErr (Option MapData) × MeasuringMemo :=
  match mapData with
  | none => (.ok none, st)
  | some m =>
    match bufferedDeterminer env ctx st q with
    | (.error e, st1) => (.error e, st1)
    | (.ok .sentinelFalse, st1) => (.ok (some m), st1)
    | (.ok (.buffered gs la ln), st1) =>
      match env.modifyMapDataMeasuring m (.buffered gs la ln) q.hiderCloser with
      | .error e => (.error e, st1)
      | .ok m2 => (.ok (some m2), st1)

/-- The first attempt of the boundary-containment path of
`hiderifyMeasuring`: `holedMask((await adjustPerMeasuring(question, $mapGeoJSON))!)`. -/
def measuringAttempt1 (env : Env) (ctx : MapContext) (st : MeasuringMemo)
    (q : MeasuringQuestion) (m : MapData) :
    Except EngineErr MapData × MeasuringMemo :=
  match adjustPerMeasuring env ctx st q (some m) with
  | (.error e, st1) => (.error e, st1)
  | (.ok none, st1) => (.error .geometryOpFailed, st1)
  | (.ok (some r), st1) => (env.holedMask r, st1)

/-- The defensive retry of the boundary-containment path of
`hiderifyMeasuring`, on the mask's inverse wrapped as a single-feature
collection. -/
def measuringAttempt2 (env : Env) (ctx : MapContext) (st : MeasuringMemo)
    (q : MeasuringQuestion) (m : MapData) :
    Except EngineErr (Option MapData) × MeasuringMemo :=
  match env.holedMask m with
  | .error e => (.error e, st)
  | .ok hm =>
    adjustPerMeasuring env ctx st q (some (MapData.featureCollection [hm]))

/-- The boundary-containment tail of `hiderifyMeasuring`: apply, test the
hider point against the holed mask, and flip `question.hiderCloser` when it
is contained; a doubly-failed attempt or missing feature returns the
question unchanged. -/
def hiderifyMeasuringBoundary (env : Env) (ctx : MapContext)
    (st : MeasuringMemo) (q : MeasuringQuestion) (hider : Coord) :
    MeasuringQuestion × MeasuringMemo :=
  match env.mapGeoJSON with
  | none => (q, st)
  | some m =>
    match measuringAttempt1 env ctx st q m with
    | (.ok f, st1) =>
      let hiderPoint : Coord := ⟨hider.lng, hider.lat⟩
      (if env.pip hiderPoint f then { q with hiderCloser := !q.hiderCloser }
       else q, st1)
    | (.error _, st1) =>
      match measuringAttempt2 env ctx st1 q m with
      | (.error _, st2) => (q, st2)
      | (.ok none, st2) => (q, st2)
      | (.ok (some f), st2) =>
        let hiderPoint : Coord := ⟨hider.lng, hider.lat⟩
        (if env.pip hiderPoint f then { q with hiderCloser := !q.hiderCloser }
         else q, st2)

/-- `hiderifyMeasuring(question)`: no-op outside hider mode; nearest-feature
distance comparison for plain categories; the `rail-measure` branch (which
sets `hiderCloser` but does not return, falling through); the
`mcdonalds`/`seven11` branch (which returns); otherwise the
boundary-containment self-correction path. -/
def hiderifyMeasuring (env : Env) (ctx : MapContext) (st : MeasuringMemo)
    (q : MeasuringQuestion) : MeasuringQuestion × MeasuringMemo :=
  match env.hiderMode with
  | none => (q, st)
  | some hider =>
    if plainCategories.contains q.qtype then
      let questionNearestDist := env.nearestDistanceToPoint q.qtype q.lng q.lat
      let hiderNearestDist :=
        env.nearestDistanceToPoint q.qtype hider.lng hider.lat
      ({ q with hiderCloser := decide (hiderNearestDist < questionNearestDist) },
        st)
    else if q.qtype == "rail-measure" ∧ env.trainStations.length = 0 then
      (q, st)
    else
      let q1 :=
        if q.qtype == "rail-measure" then
          let location : Coord := ⟨q.lng, q.lat⟩
          let nearestTrainStation :=
            env.nearestStationGeom location env.trainStations
          let dist := env.distanceKm location nearestTrainStation
          let hiderPt : Coord := ⟨hider.lng, hider.lat⟩
          let hiderNearest := env.nearestStationGeom hiderPt env.trainStations
          let hiderDistance := env.distanceKm hiderPt hiderNearest
          { q with hiderCloser := decide (hiderDistance < dist) }
        else q
      if q1.qtype == "mcdonalds" ∨ q1.qtype == "seven11" then
        let points := env.specificPlaces q1.qtype
        let seeker : Coord := ⟨q1.lng, q1.lat⟩
        let nearest := env.nearestSpecific seeker points
        let dist := env.distanceMiles seeker nearest
        let hiderPt : Coord := ⟨hider.lng, hider.lat⟩
        let hiderNearest := env.nearestSpecific hiderPt points
        let hiderDistance := env.distanceMiles hiderPt hiderNearest
        ({ q1 with hiderCloser := decide (hiderDistance < dist) }, st)
      else
        hiderifyMeasuringBoundary env ctx st q1 hider

/-- A trivial environment used as the base of concrete test environments. -/
def defaultEnv : Env where
  hiderMode := none
  mapGeoJSON := none
  trainStations := []
  findAdminBoundary := fun _ _ _ => none
  letterZones := fun _ _ => 0
  airportsResponse := ⟨[], none⟩
  citiesResponse := ⟨[], none⟩
  fullResponse := fun _ => ⟨[], none⟩
  nearestName := fun _ _ _ => none
  nearestDistanceToPoint := fun _ _ _ => 0
  stationPlaces := 0
  nearestStation := fun _ _ => ⟨"", none, none⟩
  trainLineNodes := fun _ => []
  specificPlaces := fun _ => 0
  nearestSpecific := fun _ _ => 0
  distanceMiles := fun _ _ => 0
  nearestStationGeom := fun _ _ => 0
  distanceKm := fun _ _ => 0
  highspeedFeatures := 0
  coastline := 0
  pointToPolygonDistance := fun _ _ => 0
  bboxOf := fun _ => 0
  pip := fun _ _ => false
  pipCell := fun _ _ => false
  geoSpatialVoronoi := fun _ => []
  holedMask := fun _ => .ok (.base 1)
  modifyMapData := fun m _ _ => .ok m
  modifyMapDataMeasuring := fun m _ _ => .ok m

/-- A concrete map context (no drawn polygon, symbolic viewport 0). -/
def ctx0 : MapContext := ⟨none, 0⟩

/-- A matching subtype that reaches the boundary-containment path of
`hiderifyMatching` (neither a plain category nor a station question). -/
def matchingBoundaryPath (t : String) : Prop :=
  t ∉ plainCategories ∧ t ≠ "same-first-letter-station"
    ∧ t ≠ "same-length-station" ∧ t ≠ "same-train-line"

/-- A measuring subtype that reaches the boundary-containment path of
`hiderifyMeasuring` directly (not a plain category, `rail-measure`,
`mcdonalds` or `seven11`). -/
def measuringBoundaryPath (t : String) : Prop :=
  t ∉ plainCategories ∧ t ≠ "rail-measure"
    ∧ t ≠ "mcdonalds" ∧ t ≠ "seven11"

/-- Environment for the C1 witness: a `zone` boundary resolves, both mask
adjustments succeed, and the point-in-polygon test holds exactly at the
origin. -/
def envC1 : Env :=
  { defaultEnv with
      hiderMode := some ⟨0, 0⟩
      mapGeoJSON := some (.base 0)
      findAdminBoundary := fun _ _ _ => some ⟨some "France", some "France", 0⟩
      modifyMapData := fun _ _ _ => .ok (.base 2)
      modifyMapDataMeasuring := fun _ _ _ => .ok (.base 2)
      holedMask := fun _ => .ok (.base 1)
      pip := fun c _ => decide (c = ⟨0, 0⟩) }

/-- Environment for the C2 witness: the provider reports a runtime error
for every category-"full" fetch. -/
def envC2 : Env :=
  { defaultEnv with
      mapGeoJSON := some (.base 0)
      fullResponse := fun _ => ⟨[], some "runtime error: query timed out"⟩ }

/-- Environment for the C3 witness: every `modifyMapData` application
throws, so both the first attempt and the retry fail. -/
def envC3 : Env :=
  { defaultEnv with
      hiderMode := some ⟨0, 0⟩
      mapGeoJSON := some (.base 0)
      findAdminBoundary := fun _ _ _ => some ⟨some "France", some "France", 0⟩
      modifyMapData := fun _ _ _ => .error .geometryOpFailed
      modifyMapDataMeasuring := fun _ _ _ => .error .geometryOpFailed
      holedMask := fun _ => .ok (.base 1) }

/-- Environment for the C5 witness: a map region is loaded. -/
def envC5 : Env := { defaultEnv with mapGeoJSON := some (.base 0) }

/-- Environment for the C6 witness: the admin lookup finds a boundary whose
English name is "France"; the same-letter-zone pipeline yields the symbolic
collection 7. -/
def envC6 : Env :=
  { defaultEnv with
      findAdminBoundary := fun _ _ _ => some ⟨some "France", some "France", 0⟩
      letterZones := fun _ _ => 7 }

/-- Environment for the C7 failing input: `rail-measure` with a non-empty
cached station list, the hider's nearest-station distance (1 km) strictly
below the seeker's (9 km), and a hider point that lies inside the holed
mask of the map region. -/
def envC7 : Env :=
  { defaultEnv with
      hiderMode := some ⟨20, 20⟩
      mapGeoJSON := some (.base 0)
      trainStations := [5]
      nearestStationGeom := fun _ _ => 5
      distanceKm := fun c _ => if c = ⟨20, 20⟩ then 1 else 9
      holedMask := fun _ => .ok (.base 1)
      pip := fun _ _ => true }

/-- Environment for the C8 witness: the hider's nearest station is named
"Springfield", the seeker's is "Shelbyville". -/
def envC8 : Env :=
  { defaultEnv with
      hiderMode := some ⟨0, 0⟩
      nearestStation := fun c _ =>
        if c = ⟨0, 0⟩ then ⟨"node/1", some "Springfield", none⟩
        else ⟨"node/2", some "Shelbyville", none⟩ }

/-- A second call through a `_.memoize` wrapper with an equal key returns
the first call's result (success or failure alike) and does not run the
body again. -/
theorem memoizeCall_cached {Q K A : Type} [DecidableEq K] (keyOf : Q → K)
    (body : Q → A) (q1 q2 : Q) (h : keyOf q1 = keyOf q2) :
    (memoizeCall keyOf body (memoizeCall keyOf body memoEmpty q1).2 q2).1
      = (memoizeCall keyOf body memoEmpty q1).1
    ∧ (memoizeCall keyOf body
        (memoizeCall keyOf body memoEmpty q1).2 q2).2.computeCount = 1
    ∧ (memoizeCall keyOf body memoEmpty q1).1 = body q1 := by
  simp [memoizeCall, memoEmpty, lookupEntry, h]

/-- Claim C10: when the mask-adjustment operations (`adjustPerMatching`,
`adjustPerMeasuring`) are called with a `null` working mask, they return
`undefined` immediately — neither the input mask nor a new mask — without
resolving any boundary or touching the cache (the cache state is returned
unchanged, so in particular the resolver body never runs). -/
theorem c10_null_mask_returns_undefined (env : Env) (ctx : MapContext)
    (st : MatchingMemo) (stm : MeasuringMemo) (q : MatchingQuestion)
    (qm : MeasuringQuestion) :
    adjustPerMatching env ctx st q none = (.ok none, st)
    ∧ adjustPerMeasuring env ctx stm qm none = (.ok none, stm) :=
  ⟨rfl, rfl⟩

/-- Claim C4: two calls to the memoized boundary resolvers
(`determineMatchingBoundary`, `bufferedDeterminer`) whose canonical
signatures are value-equal compute the boundary only once (the compute
counter ends at 1) and return the same boundary value for both calls. -/
theorem c4_memoized_resolver_single_computation (env : Env)
    (ctx : MapContext) (q1 q2 : MatchingQuestion)
    (qm1 qm2 : MeasuringQuestion)
    (h : matchingKey ctx q1 = matchingKey ctx q2)
    (hm : measuringKey ctx qm1 = measuringKey ctx qm2) :
    ((determineMatchingBoundary env ctx
        (determineMatchingBoundary env ctx memoEmpty q1).2 q2).1
      = (determineMatchingBoundary env ctx memoEmpty q1).1
    ∧ (determineMatchingBoundary env ctx
        (determineMatchingBoundary env ctx memoEmpty q1).2 q2).2.computeCount = 1)
    ∧ ((bufferedDeterminer env ctx
        (bufferedDeterminer env ctx memoEmpty qm1).2 qm2).1
      = (bufferedDeterminer env ctx memoEmpty qm1).1
    ∧ (bufferedDeterminer env ctx
        (bufferedDeterminer env ctx memoEmpty qm1).2 qm2).2.computeCount = 1) := by
  have h1 := memoizeCall_cached (matchingKey ctx)
    (determineMatchingBoundaryBody env) q1 q2 h
  have h2 := memoizeCall_cached (measuringKey ctx)
    (bufferedDeterminerBody env) qm1 qm2 hm
  exact ⟨⟨h1.1, h1.2.1⟩, ⟨h2.1, h2.2.1⟩⟩

/-- Witness for C4 at a concrete environment, question and context. -/
theorem c4_memoized_resolver_single_computation_witness :
    ((determineMatchingBoundary defaultEnv ctx0
        (determineMatchingBoundary defaultEnv ctx0 memoEmpty
          ⟨"park", 0, 0, true, none, none, none⟩).2
        ⟨"park", 0, 0, true, none, none, none⟩).1
      = (determineMatchingBoundary defaultEnv ctx0 memoEmpty
          ⟨"park", 0, 0, true, none, none, none⟩).1
    ∧ (determineMatchingBoundary defaultEnv ctx0
        (determineMatchingBoundary defaultEnv ctx0 memoEmpty
          ⟨"park", 0, 0, true, none, none, none⟩).2
        ⟨"park", 0, 0, true, none, none, none⟩).2.computeCount = 1)
    ∧ ((bufferedDeterminer defaultEnv ctx0
        (bufferedDeterminer defaultEnv ctx0 memoEmpty
          ⟨"rail-measure", 0, 0, false, none⟩).2
        ⟨"rail-measure", 0, 0, false, none⟩).1
      = (bufferedDeterminer defaultEnv ctx0 memoEmpty
          ⟨"rail-measure", 0, 0, false, none⟩).1
    ∧ (bufferedDeterminer defaultEnv ctx0
        (bufferedDeterminer defaultEnv ctx0 memoEmpty
          ⟨"rail-measure", 0, 0, false, none⟩).2
        ⟨"rail-measure", 0, 0, false, none⟩).2.computeCount = 1) :=
  c4_memoized_resolver_single_computation defaultEnv ctx0
    ⟨"park", 0, 0, true, none, none, none⟩
    ⟨"park", 0, 0, true, none, none, none⟩
    ⟨"rail-measure", 0, 0, false, none⟩
    ⟨"rail-measure", 0, 0, false, none⟩ rfl rfl

/-- Claim C9: the memoization wrapper caches the produced result regardless
of outcome: once the resolver body fails for a signature (e.g. with the
"No boundary found" error), a later call with a value-equal signature
returns the same failure without re-running the body (the compute counter
stays at 1) — failures are cached exactly like successes. -/
theorem c9_failures_cached_like_successes (env : Env) (ctx : MapContext)
    (q1 q2 : MatchingQuestion) (e : EngineErr)
    (h : matchingKey ctx q1 = matchingKey ctx q2)
    (hfail : determineMatchingBoundaryBody env q1 = .error e) :
    (determineMatchingBoundary env ctx memoEmpty q1).1 = .error e
    ∧ (determineMatchingBoundary env ctx
        (determineMatchingBoundary env ctx memoEmpty q1).2 q2).1 = .error e
    ∧ (determineMatchingBoundary env ctx
        (determineMatchingBoundary env ctx memoEmpty q1).2 q2).2.computeCount = 1 := by
  have h1 := memoizeCall_cached (matchingKey ctx)
    (determineMatchingBoundaryBody env) q1 q2 h
  have hres : (determineMatchingBoundary env ctx memoEmpty q1).1 = .error e :=
    h1.2.2.trans hfail
  exact ⟨hres, h1.1.trans hres, h1.2.1⟩

/-- Witness for C9: a `zone` question whose admin-boundary lookup returns
`null`, so the body fails with the "No boundary found" error; the second
call returns the cached failure. -/
theorem c9_failures_cached_like_successes_witness :
    (determineMatchingBoundary defaultEnv ctx0 memoEmpty
        ⟨"zone", 0, 0, true, some ⟨2⟩, none, none⟩).1
      = .error .noBoundaryFound
    ∧ (determineMatchingBoundary defaultEnv ctx0
        (determineMatchingBoundary defaultEnv ctx0 memoEmpty
          ⟨"zone", 0, 0, true, some ⟨2⟩, none, none⟩).2
        ⟨"zone", 0, 0, true, some ⟨2⟩, none, none⟩).1
      = .error .noBoundaryFound
    ∧ (determineMatchingBoundary defaultEnv ctx0
        (determineMatchingBoundary defaultEnv ctx0 memoEmpty
          ⟨"zone", 0, 0, true, some ⟨2⟩, none, none⟩).2
        ⟨"zone", 0, 0, true, some ⟨2⟩, none, none⟩).2.computeCount = 1 :=
  c9_failures_cached_like_successes defaultEnv ctx0
    ⟨"zone", 0, 0, true, some ⟨2⟩, none, none⟩
    ⟨"zone", 0, 0, true, some ⟨2⟩, none, none⟩ .noBoundaryFound rfl rfl

/-- A subtype in the measuring no-boundary list matches none of the special
measuring branches tested before it in the switch. -/
theorem measuringNoBoundary_not_special {t : String}
    (h : t ∈ measuringNoBoundaryTypes) :
    (t == "highspeed-measure-shinkansen") = false ∧ (t == "coastline") = false
    ∧ (t == "airport") = false ∧ (t == "city") = false
    ∧ t ∉ fullTypes ∧ (t == "custom-measure") = false := by
  fin_cases h <;> decide

/-- Claim C5: for a question whose subtype is a plain category zone or
another no-boundary type, the resolver returns the sentinel `false`, and
the mask-adjustment operation then returns the input mask itself, unchanged
(no union or difference is applied). -/
theorem c5_sentinel_false_mask_unchanged (env : Env) (ctx : MapContext)
    (q : MatchingQuestion) (qm : MeasuringQuestion) (m mm mg : MapData)
    (hq : q.qtype ∈ matchingNoBoundaryTypes)
    (hqm : qm.qtype ∈ measuringNoBoundaryTypes)
    (hmap : env.mapGeoJSON = some mg) :
    determineMatchingBoundaryBody env q = .ok .sentinelFalse
    ∧ (adjustPerMatching env ctx memoEmpty q (some m)).1 = .ok (some m)
    ∧ (determineMeasuringBoundary env qm).2 = .ok (some .sentinelFalse)
    ∧ (adjustPerMeasuring env ctx memoEmpty qm (some mm)).1 = .ok (some mm) := by
  have hbody : determineMatchingBoundaryBody env q = .ok .sentinelFalse := by
    simp [determineMatchingBoundaryBody, hq]
  obtain ⟨h1, h2, h3, h4, h5, h6⟩ := measuringNoBoundary_not_special hqm
  have hdet : determineMeasuringBoundary env qm = ([], .ok (some .sentinelFalse)) := by
    simp [determineMeasuringBoundary, hmap, h1, h2, h3, h4, h5, h6, hqm]
  have hbuf : bufferedDeterminerBody env qm = .ok .sentinelFalse := by
    simp [bufferedDeterminerBody, hdet]
  refine ⟨hbody, ?_, by simp [hdet], ?_⟩
  · simp [adjustPerMatching, determineMatchingBoundary, memoizeCall,
      memoEmpty, lookupEntry, hbody]
  · simp [adjustPerMeasuring, bufferedDeterminer, memoizeCall,
      memoEmpty, lookupEntry, hbuf]

/-- Witness for C5: a plain `park` matching question and a `seven11`
measuring question leave concrete masks unchanged. -/
theorem c5_sentinel_false_mask_unchanged_witness :
    determineMatchingBoundaryBody envC5 ⟨"park", 0, 0, true, none, none, none⟩
      = .ok .sentinelFalse
    ∧ (adjustPerMatching envC5 ctx0 memoEmpty
        ⟨"park", 0, 0, true, none, none, none⟩ (some (.base 3))).1
      = .ok (some (.base 3))
    ∧ (determineMeasuringBoundary envC5 ⟨"seven11", 0, 0, false, none⟩).2
      = .ok (some .sentinelFalse)
    ∧ (adjustPerMeasuring envC5 ctx0 memoEmpty
        ⟨"seven11", 0, 0, false, none⟩ (some (.base 4))).1
      = .ok (some (.base 4)) :=
  c5_sentinel_false_mask_unchanged envC5 ctx0
    ⟨"park", 0, 0, true, none, none, none⟩
    ⟨"seven11", 0, 0, false, none⟩ (.base 3) (.base 4) (.base 0)
    (by decide) (by decide) rfl

/-- Claim C6: for a letter-zone question whose enclosing administrative
boundary is found, the resolver raises the `NoEnglishName` failure exactly
when the boundary's English name field is falsy (absent or empty) and the
first character of its native name does not pass the single-ASCII-letter
test; when an English name is present (non-empty), the grouping letter is
the uppercased first character of that English name. -/
theorem c6_letter_zone_name (env : Env) (q : MatchingQuestion) (cat : CatData)
    (zone : AdminZone) (nm : String)
    (htype : q.qtype = "letter-zone")
    (hcat : q.cat = some cat)
    (hz : env.findAdminBoundary q.lat q.lng cat.adminLevel = some zone)
    (hnm : zone.name = some nm) :
    (determineMatchingBoundaryBody env q = .error .noEnglishName
      ↔ (jsFalsyStr zone.nameEn = true ∧ firstAsciiTest nm = false))
    ∧ (∀ e c cs, zone.nameEn = some e → e.data = c :: cs →
        determineMatchingBoundaryBody env q
          = .ok (.value (.letterZonesUnion
              (env.letterZones cat.adminLevel c.toUpper)))) := by
  obtain ⟨zen, znm, zg⟩ := zone
  simp only [AdminZone.name, AdminZone.nameEn] at hnm ⊢
  subst hnm
  have hred : determineMatchingBoundaryBody env q
      = (match chooseEnglishName zen (some nm) with
         | .error e => .error e
         | .ok englishName =>
           match charUpperFirst englishName with
           | none => .error .typeError
           | some letter =>
             .ok (.value (.letterZonesUnion
               (env.letterZones cat.adminLevel letter)))) := by
    simp [determineMatchingBoundaryBody, htype, hcat, hz,
      (by decide : ("letter-zone" : String) ∉ matchingNoBoundaryTypes)]
  rw [hred]
  rcases zen with _ | s
  · cases hft : firstAsciiTest nm
    · simp [chooseEnglishName, fallbackName, hft, jsFalsyStr]
    · rcases hd : nm.data with _ | ⟨c0, rest⟩
      · rw [firstAsciiTest, hd] at hft
        exact absurd hft (by simp)
      · simp [chooseEnglishName, fallbackName, hft,
          jsFalsyStr, charUpperFirst, hd]
  · by_cases hse : s = ""
    · subst hse
      constructor
      · cases hft : firstAsciiTest nm
        · simp [chooseEnglishName, fallbackName, hft,
            jsFalsyStr]
        · rcases hd : nm.data with _ | ⟨c0, rest⟩
          · rw [firstAsciiTest, hd] at hft
            exact absurd hft (by simp)
          · simp [chooseEnglishName, fallbackName, hft,
              jsFalsyStr, charUpperFirst, hd]
      · intro e c cs he hedata
        obtain rfl : ("" : String) = e := by injection he
        exact absurd hedata (by simp)
    · rcases hd : s.data with _ | ⟨c0, rest⟩
      · exact absurd (by cases s; simp_all [String.ext_iff]) hse
      · constructor
        · simp [chooseEnglishName, hse, jsFalsyStr, charUpperFirst, hd]
        · intro e c cs he hedata
          obtain rfl : s = e := by injection he
          rw [hd] at hedata
          obtain ⟨rfl, rfl⟩ : c0 = c ∧ rest = cs := by
            injection hedata with h1 h2; exact ⟨h1, h2⟩
          simp [chooseEnglishName, hse, charUpperFirst, hd]

/-- Witness for C6: with English name "France" the resolver does not raise
`NoEnglishName` and derives the grouping letter `F` (the boundary is the
same-letter union for `F`). -/
theorem c6_letter_zone_name_witness :
    (determineMatchingBoundaryBody envC6
        ⟨"letter-zone", 0, 0, true, some ⟨2⟩, none, none⟩
      = .error .noEnglishName
      ↔ (jsFalsyStr (some "France") = true ∧ firstAsciiTest "France" = false))
    ∧ determineMatchingBoundaryBody envC6
        ⟨"letter-zone", 0, 0, true, some ⟨2⟩, none, none⟩
      = .ok (.value (.letterZonesUnion (envC6.letterZones 2 'F'.toUpper))) := by
  have h := c6_letter_zone_name envC6
    ⟨"letter-zone", 0, 0, true, some ⟨2⟩, none, none⟩ ⟨2⟩
    ⟨some "France", some "France", 0⟩ "France" rfl rfl rfl rfl
  exact ⟨h.1, h.2 "France" 'F' "rance".data rfl rfl⟩

/-- A category-"full" subtype matches none of the other branches tested in
the `findMatchingPlaces` / `determineMeasuringBoundary` switches. -/
theorem fullType_not_special {t : String} (h : t ∈ fullTypes) :
    (t == "airport") = false ∧ (t == "major-city") = false
    ∧ (t == "custom-points") = false
    ∧ (t == "highspeed-measure-shinkansen") = false
    ∧ (t == "coastline") = false ∧ (t == "city") = false := by
  fin_cases h <;> decide

/-- Claim C2: for a category-"full" question, a provider remark starting
with the runtime-error marker, or a response of 1000 or more elements,
makes resolution surface exactly one warning and return an empty result
(an empty point list for matching, an empty multipolygon for measuring)
with no geometry combination; otherwise no warning is surfaced and the
result holds one normalized point per response element. -/
theorem c2_full_category_safety_gate (env : Env) (q : MatchingQuestion)
    (qm : MeasuringQuestion) (mg : MapData)
    (hq : q.qtype ∈ fullTypes) (hqm : qm.qtype ∈ fullTypes)
    (hmap : env.mapGeoJSON = some mg) :
    ((runtimeErrorRemark (env.fullResponse (locationOfFull q.qtype)).remark = true
        ∨ 1000 ≤ (env.fullResponse (locationOfFull q.qtype)).elements.length) →
      ∃ w, findMatchingPlaces env q = some ([w], .pts []))
    ∧ (runtimeErrorRemark (env.fullResponse (locationOfFull q.qtype)).remark = false →
       (env.fullResponse (locationOfFull q.qtype)).elements.length < 1000 →
       findMatchingPlaces env q = some ([], .pts
         ((env.fullResponse (locationOfFull q.qtype)).elements.map elementPoint))
       ∧ ((env.fullResponse (locationOfFull q.qtype)).elements.map elementPoint).length
         = (env.fullResponse (locationOfFull q.qtype)).elements.length)
    ∧ ((runtimeErrorRemark (env.fullResponse (locationOfFull qm.qtype)).remark = true
        ∨ 1000 ≤ (env.fullResponse (locationOfFull qm.qtype)).elements.length) →
      ∃ w, determineMeasuringBoundary env qm
        = ([w], .ok (some (.geoms [.multiPolygonEmpty]))))
    ∧ (runtimeErrorRemark (env.fullResponse (locationOfFull qm.qtype)).remark = false →
       (env.fullResponse (locationOfFull qm.qtype)).elements.length < 1000 →
       determineMeasuringBoundary env qm = ([], .ok (some (.geoms
         [.combinedPoints
           ((env.fullResponse (locationOfFull qm.qtype)).elements.map elementPoint)])))) := by
  obtain ⟨n1, n2, n3, _, _, _⟩ := fullType_not_special hq
  obtain ⟨m1, _, _, m4, m5, m6⟩ := fullType_not_special hqm
  refine ⟨?_, ?_, ?_, ?_⟩
  · intro hgate
    cases hrem : runtimeErrorRemark (env.fullResponse (locationOfFull q.qtype)).remark
    · rcases hgate with hrem' | hlen
      · rw [hrem] at hrem'; exact absurd hrem' (by simp)
      · exact ⟨fullTooManyToast (locationOfFull q.qtype)
          (env.fullResponse (locationOfFull q.qtype)).elements.length,
          by simp [findMatchingPlaces, n1, n2, n3, hq, hrem, hlen]⟩
    · exact ⟨fullErrorToast (locationOfFull q.qtype),
        by simp [findMatchingPlaces, n1, n2, n3, hq, hrem]⟩
  · intro hrem hlen
    have hl : ¬ 1000 ≤ (env.fullResponse (locationOfFull q.qtype)).elements.length :=
      Nat.not_le.mpr hlen
    simp [findMatchingPlaces, n1, n2, n3, hq, hrem, hl]
  · intro hgate
    cases hrem : runtimeErrorRemark (env.fullResponse (locationOfFull qm.qtype)).remark
    · rcases hgate with hrem' | hlen
      · rw [hrem] at hrem'; exact absurd hrem' (by simp)
      · exact ⟨fullTooManyToast (locationOfFull qm.qtype)
          (env.fullResponse (locationOfFull qm.qtype)).elements.length,
          by simp [determineMeasuringBoundary, hmap, m1, m4, m5, m6, hqm,
            hrem, hlen]⟩
    · exact ⟨fullErrorToast (locationOfFull qm.qtype),
        by simp [determineMeasuringBoundary, hmap, m1, m4, m5, m6, hqm, hrem]⟩
  · intro hrem hlen
    have hl : ¬ 1000 ≤ (env.fullResponse (locationOfFull qm.qtype)).elements.length :=
      Nat.not_le.mpr hlen
    simp [determineMeasuringBoundary, hmap, m1, m4, m5, m6, hqm, hrem, hl]

/-- Witness for C2: a `park-full` fetch whose remark starts with the
runtime-error marker resolves to a warning plus an empty point list
(matching) and a warning plus an empty multipolygon (measuring). -/
theorem c2_full_category_safety_gate_witness :
    (∃ w, findMatchingPlaces envC2 ⟨"park-full", 0, 0, true, none, none, none⟩
      = some ([w], .pts []))
    ∧ (∃ w, determineMeasuringBoundary envC2 ⟨"park-full", 0, 0, false, none⟩
      = ([w], .ok (some (.geoms [.multiPolygonEmpty])))) := by
  have h := c2_full_category_safety_gate envC2
    ⟨"park-full", 0, 0, true, none, none, none⟩
    ⟨"park-full", 0, 0, false, none⟩ (.base 0) (by decide) (by decide) rfl
  exact ⟨h.1 (Or.inl (by decide)), h.2.2.1 (Or.inl (by decide))⟩

/-- Claim C8: for a `same-length-station` question in hider mode where both
nearest stations have a usable name (`name:en` preferred, native name as
fallback), the outcome `lengthComparison` is `"same"` when the two names
have equal length, `"shorter"` when the hider's station name is strictly
shorter than the seeker's, and `"longer"` otherwise. -/
theorem c8_same_length_station (env : Env) (ctx : MapContext)
    (st : MatchingMemo) (q : MatchingQuestion) (hider : Coord) (hn sn : String)
    (hhm : env.hiderMode = some hider)
    (hq : q.qtype = "same-length-station")
    (hh : jsOrStr (env.nearestStation ⟨hider.lng, hider.lat⟩ env.stationPlaces).nameEn
            (env.nearestStation ⟨hider.lng, hider.lat⟩ env.stationPlaces).name
          = some hn)
    (hs : jsOrStr (env.nearestStation ⟨q.lng, q.lat⟩ env.stationPlaces).nameEn
            (env.nearestStation ⟨q.lng, q.lat⟩ env.stationPlaces).name
          = some sn)
    (hhn : hn ≠ "") (hsn : sn ≠ "") :
    ((hiderifyMatching env ctx st q).1.lengthComparison
      = some (if hn.length = sn.length then "same"
          else if hn.length < sn.length then "shorter" else "longer"))
    ∧ ((hiderifyMatching env ctx st q).1.lengthComparison = some "same"
        ↔ hn.length = sn.length)
    ∧ ((hiderifyMatching env ctx st q).1.lengthComparison = some "shorter"
        ↔ hn.length < sn.length)
    ∧ ((hiderifyMatching env ctx st q).1.lengthComparison = some "longer"
        ↔ sn.length < hn.length) := by
  have hmain : (hiderifyMatching env ctx st q).1.lengthComparison
      = some (if hn.length = sn.length then "same"
          else if hn.length < sn.length then "shorter" else "longer") := by
    simp [hiderifyMatching, hhm, hq, hiderifyMatchingStations, hh, hs,
      hhn, hsn,
      (by decide : ("same-length-station" : String) ∉ plainCategories)]
  refine ⟨hmain, ?_, ?_, ?_⟩ <;> rw [hmain] <;>
    (by_cases he : hn.length = sn.length
     · simp [he]
     · by_cases hlt : hn.length < sn.length
       · simp [he, hlt] <;> omega
       · simp [he, hlt] <;> omega)

/-- Witness for C8: "Springfield" and "Shelbyville" both have length 11, so
`lengthComparison` resolves to `"same"`. -/
theorem c8_same_length_station_witness :
    (hiderifyMatching envC8 ctx0 memoEmpty
        ⟨"same-length-station", 1, 1, false, none, none, none⟩).1.lengthComparison
      = some "same"
    ∧ ("Springfield" : String).length = 11
    ∧ ("Shelbyville" : String).length = 11 := by
  have h := c8_same_length_station envC8 ctx0 memoEmpty
    ⟨"same-length-station", 1, 1, false, none, none, none⟩ ⟨0, 0⟩
    "Springfield" "Shelbyville" rfl rfl (by decide) (by decide)
    (by decide) (by decide)
  exact ⟨h.2.1.mpr (by decide), by decide, by decide⟩

/-- In hider mode, a boundary-path matching subtype dispatches to the
boundary-containment tail. -/
theorem hiderifyMatching_boundary_dispatch (env : Env) (ctx : MapContext)
    (st : MatchingMemo) (q : MatchingQuestion) (h0 : Coord)
    (hhm : env.hiderMode = some h0)
    (hq : matchingBoundaryPath q.qtype) :
    hiderifyMatching env ctx st q = hiderifyMatchingBoundary env ctx st q h0 := by
  obtain ⟨h1, h2, h3, h4⟩ := hq
  simp [hiderifyMatching, hhm, h1, h2, h3, h4]

/-- In hider mode, a boundary-path measuring subtype dispatches to the
boundary-containment tail. -/
theorem hiderifyMeasuring_boundary_dispatch (env : Env) (ctx : MapContext)
    (stm : MeasuringMemo) (qm : MeasuringQuestion) (h0 : Coord)
    (hhm : env.hiderMode = some h0)
    (hqm : measuringBoundaryPath qm.qtype) :
    hiderifyMeasuring env ctx stm qm = hiderifyMeasuringBoundary env ctx stm qm h0 := by
  obtain ⟨h1, h2, h3, h4⟩ := hqm
  simp [hiderifyMeasuring, hhm, h1, h2, h3, h4]

/-- Claim C1: in the boundary-containment path with hider mode active and a
fixed resolved boundary (a successful first mask adjustment producing the
holed-mask feature), the self-correction step negates the descriptor's
polarity (`same` for matching, `hiderCloser` for measuring) exactly when
the hider point lies inside the holed mask of the adjusted map; hence a
hider point inside the applied mask and one outside yield opposite final
polarity values from the same initial descriptor. -/
theorem c1_self_correction_involution (env : Env) (ctx : MapContext)
    (st st1 : MatchingMemo) (stm stm1 : MeasuringMemo)
    (q : MatchingQuestion) (qm : MeasuringQuestion) (m f g : MapData)
    (h0 : Coord)
    (hhm : env.hiderMode = some h0)
    (hq : matchingBoundaryPath q.qtype)
    (hqm : measuringBoundaryPath qm.qtype)
    (hmap : env.mapGeoJSON = some m)
    (hfa : matchingAttempt1 env ctx st q m = (.ok f, st1))
    (hfam : measuringAttempt1 env ctx stm qm m = (.ok g, stm1)) :
    (hiderifyMatching env ctx st q = hiderifyMatchingBoundary env ctx st q h0)
    ∧ (∀ h : Coord, (hiderifyMatchingBoundary env ctx st q h).1
        = if env.pip ⟨h.lng, h.lat⟩ f then { q with same := !q.same } else q)
    ∧ (∀ h1 h2 : Coord, env.pip ⟨h1.lng, h1.lat⟩ f = true →
        env.pip ⟨h2.lng, h2.lat⟩ f = false →
        (hiderifyMatchingBoundary env ctx st q h1).1.same
          = !(hiderifyMatchingBoundary env ctx st q h2).1.same)
    ∧ (hiderifyMeasuring env ctx stm qm
        = hiderifyMeasuringBoundary env ctx stm qm h0)
    ∧ (∀ h : Coord, (hiderifyMeasuringBoundary env ctx stm qm h).1
        = if env.pip ⟨h.lng, h.lat⟩ g then
            { qm with hiderCloser := !qm.hiderCloser } else qm)
    ∧ (∀ h1 h2 : Coord, env.pip ⟨h1.lng, h1.lat⟩ g = true →
        env.pip ⟨h2.lng, h2.lat⟩ g = false →
        (hiderifyMeasuringBoundary env ctx stm qm h1).1.hiderCloser
          = !(hiderifyMeasuringBoundary env ctx stm qm h2).1.hiderCloser) := by
  have hb : ∀ h : Coord, (hiderifyMatchingBoundary env ctx st q h).1
      = if env.pip ⟨h.lng, h.lat⟩ f then { q with same := !q.same } else q := by
    intro h
    simp [hiderifyMatchingBoundary, hmap, hfa]
  have hbm : ∀ h : Coord, (hiderifyMeasuringBoundary env ctx stm qm h).1
      = if env.pip ⟨h.lng, h.lat⟩ g then
          { qm with hiderCloser := !qm.hiderCloser } else qm := by
    intro h
    simp [hiderifyMeasuringBoundary, hmap, hfam]
  refine ⟨hiderifyMatching_boundary_dispatch env ctx st q h0 hhm hq,
    hb, ?_, hiderifyMeasuring_boundary_dispatch env ctx stm qm h0 hhm hqm,
    hbm, ?_⟩
  · intro h1 h2 hp1 hp2
    rw [hb h1, hb h2, hp1, hp2]
    simp
  · intro h1 h2 hp1 hp2
    rw [hbm h1, hbm h2, hp1, hp2]
    simp

/-- Witness for C1: a hider inside the holed mask and one outside produce
opposite final polarity values, for a matching `zone` question and a
measuring `coastline` question. -/
theorem c1_self_correction_involution_witness :
    ((hiderifyMatchingBoundary envC1 ctx0 memoEmpty
        ⟨"zone", 0, 0, true, some ⟨2⟩, none, none⟩ ⟨0, 0⟩).1.same
      = !((hiderifyMatchingBoundary envC1 ctx0 memoEmpty
        ⟨"zone", 0, 0, true, some ⟨2⟩, none, none⟩ ⟨5, 5⟩).1.same))
    ∧ ((hiderifyMeasuringBoundary envC1 ctx0 memoEmpty
        ⟨"coastline", 0, 0, false, none⟩ ⟨0, 0⟩).1.hiderCloser
      = !((hiderifyMeasuringBoundary envC1 ctx0 memoEmpty
        ⟨"coastline", 0, 0, false, none⟩ ⟨5, 5⟩).1.hiderCloser)) := by
  have h := c1_self_correction_involution envC1 ctx0 memoEmpty
    (matchingAttempt1 envC1 ctx0 memoEmpty
      ⟨"zone", 0, 0, true, some ⟨2⟩, none, none⟩ (.base 0)).2
    memoEmpty
    (measuringAttempt1 envC1 ctx0 memoEmpty
      ⟨"coastline", 0, 0, false, none⟩ (.base 0)).2
    ⟨"zone", 0, 0, true, some ⟨2⟩, none, none⟩
    ⟨"coastline", 0, 0, false, none⟩
    (.base 0) (.base 1) (.base 1) ⟨0, 0⟩
    rfl (by unfold matchingBoundaryPath; exact ⟨by decide, by decide, by decide, by decide⟩)
    (by unfold measuringBoundaryPath; exact ⟨by decide, by decide, by decide, by decide⟩)
    rfl rfl rfl
  exact ⟨h.2.2.1 ⟨0, 0⟩ ⟨5, 5⟩ (by decide) (by decide),
    h.2.2.2.2.2 ⟨0, 0⟩ ⟨5, 5⟩ (by decide) (by decide)⟩

/-- Claim C3: in the boundary-containment answer path, when the first mask
adjustment throws, the engine retries exactly once, re-running the
adjustment on the current mask's inverse wrapped as a single-feature
collection; if that retry also throws, the original descriptor is returned
with its outcome untouched and no error propagates (the hiderify functions
are total); if the retry succeeds its feature feeds the usual containment
test. -/
theorem c3_defensive_retry_silent_degradation (env : Env) (ctx : MapContext)
    (st st1 : MatchingMemo) (stm stm1 : MeasuringMemo)
    (q : MatchingQuestion) (qm : MeasuringQuestion) (m : MapData)
    (e1 em1 : EngineErr) (h0 : Coord)
    (hhm : env.hiderMode = some h0)
    (hq : matchingBoundaryPath q.qtype)
    (hqm : measuringBoundaryPath qm.qtype)
    (hmap : env.mapGeoJSON = some m)
    (hfa : matchingAttempt1 env ctx st q m = (.error e1, st1))
    (hfam : measuringAttempt1 env ctx stm qm m = (.error em1, stm1)) :
    (∀ hm, env.holedMask m = .ok hm →
       matchingAttempt2 env ctx st1 q m
         = adjustPerMatching env ctx st1 q (some (.featureCollection [hm])))
    ∧ (∀ e2 st2, matchingAttempt2 env ctx st1 q m = (.error e2, st2) →
        (hiderifyMatching env ctx st q).1 = q)
    ∧ (∀ f st2, matchingAttempt2 env ctx st1 q m = (.ok (some f), st2) →
        (hiderifyMatching env ctx st q).1
          = if env.pip ⟨h0.lng, h0.lat⟩ f then { q with same := !q.same }
            else q)
    ∧ (∀ hm, env.holedMask m = .ok hm →
       measuringAttempt2 env ctx stm1 qm m
         = adjustPerMeasuring env ctx stm1 qm (some (.featureCollection [hm])))
    ∧ (∀ e2 st2, measuringAttempt2 env ctx stm1 qm m = (.error e2, st2) →
        (hiderifyMeasuring env ctx stm qm).1 = qm)
    ∧ (∀ f st2, measuringAttempt2 env ctx stm1 qm m = (.ok (some f), st2) →
        (hiderifyMeasuring env ctx stm qm).1
          = if env.pip ⟨h0.lng, h0.lat⟩ f then
              { qm with hiderCloser := !qm.hiderCloser }
            else qm) := by
  rw [hiderifyMatching_boundary_dispatch env ctx st q h0 hhm hq,
    hiderifyMeasuring_boundary_dispatch env ctx stm qm h0 hhm hqm]
  refine ⟨?_, ?_, ?_, ?_, ?_, ?_⟩
  · intro hm hhm'
    simp [matchingAttempt2, hhm']
  · intro e2 st2 h
    simp [hiderifyMatchingBoundary, hmap, hfa, h]
  · intro f st2 h
    simp [hiderifyMatchingBoundary, hmap, hfa, h]
  · intro hm hhm'
    simp [measuringAttempt2, hhm']
  · intro e2 st2 h
    simp [hiderifyMeasuringBoundary, hmap, hfam, h]
  · intro f st2 h
    simp [hiderifyMeasuringBoundary, hmap, hfam, h]

/-- Witness for C3: with both attempts failing, the question descriptors
come back unchanged. -/
theorem c3_defensive_retry_silent_degradation_witness :
    (hiderifyMatching envC3 ctx0 memoEmpty
        ⟨"zone", 0, 0, true, some ⟨2⟩, none, none⟩).1
      = ⟨"zone", 0, 0, true, some ⟨2⟩, none, none⟩
    ∧ (hiderifyMeasuring envC3 ctx0 memoEmpty
        ⟨"coastline", 0, 0, false, none⟩).1
      = ⟨"coastline", 0, 0, false, none⟩ := by
  have h := c3_defensive_retry_silent_degradation envC3 ctx0 memoEmpty
    (matchingAttempt1 envC3 ctx0 memoEmpty
      ⟨"zone", 0, 0, true, some ⟨2⟩, none, none⟩ (.base 0)).2
    memoEmpty
    (measuringAttempt1 envC3 ctx0 memoEmpty
      ⟨"coastline", 0, 0, false, none⟩ (.base 0)).2
    ⟨"zone", 0, 0, true, some ⟨2⟩, none, none⟩
    ⟨"coastline", 0, 0, false, none⟩
    (.base 0) .geometryOpFailed .geometryOpFailed ⟨0, 0⟩
    rfl (by unfold matchingBoundaryPath; exact ⟨by decide, by decide, by decide, by decide⟩)
    (by unfold measuringBoundaryPath; exact ⟨by decide, by decide, by decide, by decide⟩)
    rfl rfl rfl
  refine ⟨h.2.1 .geometryOpFailed
      (matchingAttempt2 envC3 ctx0
        (matchingAttempt1 envC3 ctx0 memoEmpty
          ⟨"zone", 0, 0, true, some ⟨2⟩, none, none⟩ (.base 0)).2
        ⟨"zone", 0, 0, true, some ⟨2⟩, none, none⟩ (.base 0)).2 rfl,
    h.2.2.2.2.1 .geometryOpFailed
      (measuringAttempt2 envC3 ctx0
        (measuringAttempt1 envC3 ctx0 memoEmpty
          ⟨"coastline", 0, 0, false, none⟩ (.base 0)).2
        ⟨"coastline", 0, 0, false, none⟩ (.base 0)).2 rfl⟩

/-- Claim C7, failing evaluation: for a `rail-measure` question in hider
mode with a non-empty station list and `hiderDistance < seekerDistance`,
the final outcome is `hiderCloser = false` — the branch sets `hiderCloser`
to the distance comparison but, unlike the `mcdonalds`/`seven11` branch,
does not return, so the descriptor falls through into the
boundary-containment path whose flip negates it whenever the hider lies in
the holed mask.  With no loaded map (`mapGeoJSON = null`) the same inputs
keep the claimed value `true`, isolating the fall-through as the cause. -/
theorem c7_rail_measure_fallthrough_bug :
    envC7.distanceKm ⟨20, 20⟩ 5 < envC7.distanceKm ⟨3, 3⟩ 5
    ∧ envC7.trainStations.length ≠ 0
    ∧ (hiderifyMeasuring envC7 ctx0 memoEmpty
        ⟨"rail-measure", 3, 3, false, none⟩).1.hiderCloser = false
    ∧ (hiderifyMeasuring { envC7 with mapGeoJSON := none } ctx0 memoEmpty
        ⟨"rail-measure", 3, 3, false, none⟩).1.hiderCloser = true := by
  exact ⟨by decide, by decide, rfl, rfl⟩

end JetLag
